/-
Verification of the tempo training-analytics and progression engine.

Shallow embedding of the Rust sources:
  src/src-tauri/src/progression.rs   (dimension/step model, decision engine, mutations)
  src/src-tauri/src/analysis.rs      (metric calculator, rolling context)
  src/src-tauri/src/commands/analysis.rs (adherence computation)

Modelling conventions:
  * i32 / i64 integers are modelled as Int (with explicit range checks where
    the source's parse would enforce them);
  * f32 / f64 arithmetic is modelled over ℚ (the claims under study only
    compare against constants far from representation error);
  * chrono timestamps are modelled as whole-day indices (Int); every function
    that calls Utc::now() takes the current day `now : Int` as an argument,
    and `(now - t).num_days()` becomes `now - t`;
  * Rust's `str::parse::<i32>` / `i32::to_string` are modelled by the decimal
    parser / printer `parse_i32` / `i32_to_string` below;
  * the database is modelled as the dimension record plus an append-only
    history list (`EngineState`); a mutation returns the new state and an
    `Except`, and on error returns the input state unchanged, matching the
    Rust control flow where every early `?`-return precedes any write.
-/
import Mathlib

namespace Tempo

/-! ### Decimal printing and parsing (model of `i32::to_string` / `str::parse::<i32>`) -/

/-- The decimal digit character for `n < 10`. -/
def digitChar (n : Nat) : Char :=
  match n with
  | 0 => '0' | 1 => '1' | 2 => '2' | 3 => '3' | 4 => '4'
  | 5 => '5' | 6 => '6' | 7 => '7' | 8 => '8' | _ => '9'

/-- Numeric value of a digit character. -/
def digitVal (c : Char) : Nat := c.toNat - 48

/-- Big-endian decimal digits of a natural number. -/
def natToDigits (n : Nat) : List Char :=
  if _h : n < 10 then [digitChar n]
  else natToDigits (n / 10) ++ [digitChar (n % 10)]
decreasing_by exact Nat.div_lt_self (by omega) (by omega)

/-- Value of a digit string (no sign). `none` unless nonempty and all digits. -/
def parseDigits? (l : List Char) : Option Nat :=
  if l ≠ [] ∧ l.all Char.isDigit then
    some (l.foldl (fun a c => 10 * a + digitVal c) 0)
  else none

/-- Sign-and-digits layer of `str::parse::<i32>()`, over the character list. -/
def parse_i32_chars : List Char → Option Int
  | [] => none
  | c :: rest =>
    if c = '-' then
      (parseDigits? rest).bind fun m =>
        if (m : Int) ≤ 2147483648 then some (-(m : Int)) else none
    else if c = '+' then
      (parseDigits? rest).bind fun m =>
        if (m : Int) ≤ 2147483647 then some (m : Int) else none
    else
      (parseDigits? (c :: rest)).bind fun m =>
        if (m : Int) ≤ 2147483647 then some (m : Int) else none

/-- Model of Rust `str::parse::<i32>()`: optional sign, digits, i32 range check. -/
def parse_i32 (s : String) : Option Int :=
  parse_i32_chars s.data

/-- Model of Rust `i32::to_string()`. -/
def i32_to_string (n : Int) : String :=
  if n < 0 then ⟨'-' :: natToDigits n.natAbs⟩ else ⟨natToDigits n.natAbs⟩

/-- Truncation toward zero, the semantics of Rust's `as i64` / `as i32` float cast. -/
def rat_trunc (q : ℚ) : Int := if 0 ≤ q then ⌊q⌋ else ⌈q⌉

/-- Rust `Iterator::position`: index of the first element satisfying `p`. -/
def position? {α : Type} (p : α → Bool) : List α → Option Nat
  | [] => none
  | a :: l => if p a then some 0 else (position? p l).map (· + 1)

/-! ### Dimension and step model (`progression.rs`) -/

/-- Rust `DimensionType`: progressive vs regulated. -/
inductive DimensionType
  | progressive
  | regulated
deriving DecidableEq

/-- Rust `LifecycleStatus`: where a dimension is in its progression arc. -/
inductive LifecycleStatus
  | building
  | atCeiling
  | regressing
deriving DecidableEq

/-- Rust `StepConfig`: how a dimension's value advances. -/
inductive StepConfig
  | sequence (sequence : List String)
  | increment (increment : Int) (unit : String)
  | regulated (options : List Int) (unit : String)
deriving DecidableEq

/-- Rust `StepConfig::next_value`: the next value in the progression. -/
def StepConfig.next_value : StepConfig → String → Option String
  | .sequence seq, current =>
    (position? (· == current) seq).bind fun idx => seq.get? (idx + 1)
  | .increment inc _, current =>
    (parse_i32 current).map fun current_val => i32_to_string (current_val + inc)
  | .regulated _ _, _ => none

/-- Rust `StepConfig::prev_value`: the previous value (for regression). -/
def StepConfig.prev_value : StepConfig → String → Option String
  | .sequence seq, current =>
    (position? (· == current) seq).bind fun idx =>
      if idx > 0 then seq.get? (idx - 1) else none
  | .increment inc _, current =>
    (parse_i32 current).bind fun current_val =>
      let prev := current_val - inc
      if prev > 0 then some (i32_to_string prev) else none
  | .regulated _ _, _ => none

/-- Rust `StepConfig::is_at_ceiling`: is `current` at or beyond `ceiling`. -/
def StepConfig.is_at_ceiling : StepConfig → String → String → Bool
  | .sequence seq, current, ceiling =>
    match position? (· == current) seq, position? (· == ceiling) seq with
    | some c, some ceil => decide (c ≥ ceil)
    | _, _ => current == ceiling
  | .increment _ _, current, ceiling =>
    decide ((parse_i32 current).getD 0 ≥ (parse_i32 ceiling).getD 2147483647)
  | .regulated _ _, _, _ => true

/-- Rust `StepConfig::get_regulated_duration`: pick a duration from the options by TSB. -/
def StepConfig.get_regulated_duration : StepConfig → Option ℚ → Option Int
  | .regulated options _, tsb =>
    let tsb_val := tsb.getD 0
    if options.length ≥ 2 then
      if tsb_val ≥ 0 then options.getLast?
      else if tsb_val ≥ -10 then options.head?
      else some (min (options.head?.getD 30) 40)
    else options.head?
  | _, _ => none

/-- Rust `ProgressionDimension`: the persisted progression record. -/
structure ProgressionDimension where
  id : Int
  name : String
  current_value : String
  ceiling_value : String
  step_config : StepConfig
  status : LifecycleStatus
  last_change_at : Option Int
  last_ceiling_touch_at : Option Int
  maintenance_cadence_days : Int
  created_at : Int
  updated_at : Int
deriving DecidableEq

/-- Rust `ProgressionDimension::dimension_type`. -/
def ProgressionDimension.dimension_type (d : ProgressionDimension) : DimensionType :=
  match d.step_config with
  | .regulated _ _ => .regulated
  | _ => .progressive

/-- Rust `ProgressionDimension::is_at_ceiling`. -/
def ProgressionDimension.is_at_ceiling (d : ProgressionDimension) : Bool :=
  d.step_config.is_at_ceiling d.current_value d.ceiling_value

/-- Rust `ProgressionDimension::next_value` (`None` if at ceiling or regulated). -/
def ProgressionDimension.next_value (d : ProgressionDimension) : Option String :=
  if d.is_at_ceiling then none else d.step_config.next_value d.current_value

/-- Rust `ProgressionDimension::prev_value`. -/
def ProgressionDimension.prev_value (d : ProgressionDimension) : Option String :=
  d.step_config.prev_value d.current_value

/-- Rust `ProgressionDimension::maintenance_due` (at `now`). -/
def ProgressionDimension.maintenance_due (d : ProgressionDimension) (now : Int) : Bool :=
  if d.status ≠ LifecycleStatus.atCeiling then false
  else
    match d.last_ceiling_touch_at with
    | some last_touch => decide (now - last_touch ≥ d.maintenance_cadence_days)
    | none => true

/-- Rust `ProgressionDimension::should_regress` (at `now`). -/
def ProgressionDimension.should_regress (d : ProgressionDimension) (now : Int) : Bool :=
  if d.status ≠ LifecycleStatus.atCeiling then false
  else
    match d.last_ceiling_touch_at with
    | some last_touch => decide (now - last_touch ≥ 21)
    | none => false

/-- Rust `ProgressionDimension::days_since_change` (at `now`). -/
def ProgressionDimension.days_since_change (d : ProgressionDimension) (now : Int) : Int :=
  match d.last_change_at with
  | some t => now - t
  | none => 30

/-- Rust `ProgressionDimension::get_regulated_duration`. -/
def ProgressionDimension.get_regulated_duration (d : ProgressionDimension)
    (tsb : Option ℚ) : Option Int :=
  d.step_config.get_regulated_duration tsb

/-! ### Adherence summary (`progression.rs`) -/

/-- Rust `AdherenceSummary`: weekly completion ratios feeding the engine. -/
structure AdherenceSummary where
  total_expected : Nat
  total_completed : Nat
  key_expected : Nat
  key_completed : Nat
  adherence_pct : ℚ
  key_adherence_good : Bool
  week_stable : Bool
  missed_workouts : Nat
  consecutive_low_adherence_weeks : Nat
deriving DecidableEq

/-- Rust `AdherenceSummary::compute`. -/
def AdherenceSummary.compute (total_expected total_completed key_expected key_completed
    consecutive_low_weeks : Nat) : AdherenceSummary :=
  let adherence_pct : ℚ :=
    if total_expected > 0 then (total_completed : ℚ) / (total_expected : ℚ) else 1
  let key_adherence_good := decide (key_completed ≥ key_expected)
  let week_stable := decide (adherence_pct ≥ 3/4) && key_adherence_good
  let missed_workouts := total_expected - total_completed
  { total_expected := total_expected
    total_completed := total_completed
    key_expected := key_expected
    key_completed := key_completed
    adherence_pct := adherence_pct
    key_adherence_good := key_adherence_good
    week_stable := week_stable
    missed_workouts := missed_workouts
    consecutive_low_adherence_weeks := consecutive_low_weeks }

/-- Rust `AdherenceSummary::is_unstable`. -/
def AdherenceSummary.is_unstable (a : AdherenceSummary) : Bool :=
  decide (a.adherence_pct < 7/10)

/-- Rust `AdherenceSummary::should_consider_regression`. -/
def AdherenceSummary.should_consider_regression (a : AdherenceSummary) : Bool :=
  decide (a.consecutive_low_adherence_weeks ≥ 2)

/-! ### Engine decision and per-dimension status (`progression.rs`) -/

/-- Rust `EngineDecision`: what the engine allows for a dimension. -/
inductive EngineDecision
  | progressAllowed
  | atCeiling
  | maintenanceDue
  | holdForNow
  | holdDueToUnstableWeek
  | holdDueToMissedKeySession
  | hold
  | regress
  | regulated
deriving DecidableEq

/-- Rust `DimensionStatus`: the engine's verdict for one dimension. -/
structure DimensionStatus where
  name : String
  dimension_type : DimensionType
  current : String
  ceiling : String
  status : LifecycleStatus
  engine_decision : EngineDecision
  reason : String
  next_value : Option String
  days_since_change : Int
  maintenance_due : Bool
  regulated_duration : Option Int
deriving DecidableEq

/-! ### Analysis layer (`analysis.rs`) -/

/-- Rust `UserSettings`: user physiology settings. -/
structure UserSettings where
  max_hr : Option Int
  lthr : Option Int
  ftp : Option Int
  training_days_per_week : Int
deriving DecidableEq

/-- Rust `UserSettings::effective_lthr`: LTHR, falling back to 93% of max HR (truncated). -/
def UserSettings.effective_lthr (s : UserSettings) : Option Int :=
  s.lthr.orElse fun _ => s.max_hr.map fun m => rat_trunc ((m : ℚ) * (93/100))

/-- Rust `HrZone`: heart-rate zone. -/
inductive HrZone
  | z1
  | z2
  | z3
  | z4
  | z5
deriving DecidableEq

/-- Rust `HrZone::from_hr`: zone from HR as a percentage of max HR. -/
def HrZone.from_hr (hr max_hr : Int) : HrZone :=
  let pct : ℚ := (hr : ℚ) / (max_hr : ℚ) * 100
  if pct < 60 then .z1
  else if pct < 70 then .z2
  else if pct < 80 then .z3
  else if pct < 90 then .z4
  else .z5

/-- Rust `WorkoutMetrics`: per-workout derived metrics. -/
structure WorkoutMetrics where
  pace_min_per_km : Option ℚ
  speed_kmh : Option ℚ
  kj : Option ℚ
  rtss : Option ℚ
  efficiency : Option ℚ
  cardiac_cost : Option ℚ
  hr_zone : Option HrZone
deriving DecidableEq

/-- Rust `WorkoutMetrics::compute`: all Tier-1 metrics from raw workout data. -/
def WorkoutMetrics.compute (activity_type : String) (duration_seconds : Option Int)
    (distance_meters : Option ℚ) (average_hr : Option Int) (average_watts : Option ℚ)
    (settings : UserSettings) : WorkoutMetrics :=
  let duration_min : Option ℚ := duration_seconds.map fun s => (s : ℚ) / 60
  let duration_hr : Option ℚ := duration_seconds.map fun s => (s : ℚ) / 3600
  let distance_km : Option ℚ := distance_meters.map fun m => m / 1000
  let pace_min_per_km : Option ℚ :=
    if activity_type.toLower = "run" then
      match duration_min, distance_km with
      | some dur, some dist => if dist > 0 then some (dur / dist) else none
      | _, _ => none
    else none
  let speed_kmh : Option ℚ :=
    if activity_type.toLower = "ride" then
      match distance_km, duration_hr with
      | some dist, some dur => if dur > 0 then some (dist / dur) else none
      | _, _ => none
    else none
  let kj : Option ℚ :=
    if activity_type.toLower = "ride" then
      match average_watts, duration_seconds with
      | some watts, some secs => some (watts * (secs : ℚ) / 1000)
      | _, _ => none
    else none
  let rtss : Option ℚ :=
    match duration_min, average_hr, settings.effective_lthr with
    | some dur, some hr, some lthr =>
      if lthr > 0 then
        let intensity : ℚ := (hr : ℚ) / (lthr : ℚ)
        some (dur * intensity ^ 2 / 60 * 100)
      else none
    | _, _, _ => none
  let efficiency : Option ℚ :=
    match average_hr with
    | some hr =>
      if activity_type.toLower = "run" ∧ hr > 0 then
        pace_min_per_km.map fun pace => pace / (hr : ℚ)
      else if activity_type.toLower = "ride" ∧ hr > 0 then
        average_watts.map fun watts => watts / (hr : ℚ)
      else none
    | none => none
  let cardiac_cost : Option ℚ :=
    match average_hr, duration_min with
    | some hr, some dur => some ((hr : ℚ) * dur)
    | _, _ => none
  let hr_zone : Option HrZone :=
    match average_hr, settings.max_hr with
    | some hr, some mx => some (HrZone.from_hr hr mx)
    | _, _ => none
  { pace_min_per_km := pace_min_per_km
    speed_kmh := speed_kmh
    kj := kj
    rtss := rtss
    efficiency := efficiency
    cardiac_cost := cardiac_cost
    hr_zone := hr_zone }

/-- Rust `WorkoutSummary`: one row used for rolling calculations. `started_at` is a day index. -/
structure WorkoutSummary where
  started_at : Int
  activity_type : String
  duration_seconds : Option Int
  rtss : Option ℚ
  hr_zone : Option HrZone
deriving DecidableEq

/-- Rust `WeeklyVolume`: weekly volume by modality, in hours. -/
structure WeeklyVolume where
  total_hrs : ℚ
  run_hrs : ℚ
  ride_hrs : ℚ
  other_hrs : ℚ
deriving DecidableEq

/-- Rust `IntensityDistribution`: zone percentages over 7 days. -/
structure IntensityDistribution where
  z1_pct : ℚ
  z2_pct : ℚ
  z3_pct : ℚ
  z4_pct : ℚ
  z5_pct : ℚ
deriving DecidableEq

/-- Rust `LongestSession`: longest session per modality (minutes). -/
structure LongestSession where
  run_min : Option ℚ
  ride_min : Option ℚ
deriving DecidableEq

/-- Rust `TrainingContext`: the rolling-window training snapshot. -/
structure TrainingContext where
  atl : Option ℚ
  ctl : Option ℚ
  tsb : Option ℚ
  weekly_volume : WeeklyVolume
  week_over_week_delta_pct : Option ℚ
  intensity_distribution : IntensityDistribution
  longest_session : LongestSession
  consistency_pct : Option ℚ
  workouts_this_week : Int
deriving DecidableEq

/-- Rust `TrainingContext::compute_rtss_sum`. -/
def TrainingContext.compute_rtss_sum (workouts : List WorkoutSummary) : Option ℚ :=
  let sum : ℚ := (workouts.filterMap (·.rtss)).sum
  if sum > 0 then some sum else none

/-- Rust `TrainingContext::compute_rtss_avg`. -/
def TrainingContext.compute_rtss_avg (workouts : List WorkoutSummary) (days : Int) : Option ℚ :=
  let sum : ℚ := (workouts.filterMap (·.rtss)).sum
  if sum > 0 then some (sum / (days : ℚ)) else none

/-- Rust `TrainingContext::compute_weekly_volume`. -/
def TrainingContext.compute_weekly_volume (workouts : List WorkoutSummary) : WeeklyVolume :=
  workouts.foldl
    (fun volume w =>
      let hrs : ℚ := (w.duration_seconds.map fun s => (s : ℚ) / 3600).getD 0
      let volume := { volume with total_hrs := volume.total_hrs + hrs }
      if w.activity_type.toLower = "run" then
        { volume with run_hrs := volume.run_hrs + hrs }
      else if w.activity_type.toLower = "ride" then
        { volume with ride_hrs := volume.ride_hrs + hrs }
      else
        { volume with other_hrs := volume.other_hrs + hrs })
    { total_hrs := 0, run_hrs := 0, ride_hrs := 0, other_hrs := 0 }

/-- Rust `TrainingContext::compute_intensity_distribution`. -/
def TrainingContext.compute_intensity_distribution (workouts : List WorkoutSummary) :
    IntensityDistribution :=
  let zoned := workouts.filterMap fun w =>
    match w.hr_zone, w.duration_seconds with
    | some zone, some dur => some (zone, (dur : ℚ) / 60)
    | _, _ => none
  let total_duration : ℚ := (zoned.map (·.2)).sum
  let dur_in : HrZone → ℚ := fun z => ((zoned.filter fun p => p.1 = z).map (·.2)).sum
  if total_duration > 0 then
    { z1_pct := dur_in .z1 / total_duration * 100
      z2_pct := dur_in .z2 / total_duration * 100
      z3_pct := dur_in .z3 / total_duration * 100
      z4_pct := dur_in .z4 / total_duration * 100
      z5_pct := dur_in .z5 / total_duration * 100 }
  else
    { z1_pct := 0, z2_pct := 0, z3_pct := 0, z4_pct := 0, z5_pct := 0 }

/-- Rust `TrainingContext::compute_longest_session`. -/
def TrainingContext.compute_longest_session (workouts : List WorkoutSummary) : LongestSession :=
  workouts.foldl
    (fun longest w =>
      let dur_min := w.duration_seconds.map fun s => (s : ℚ) / 60
      if w.activity_type.toLower = "run" then
        match dur_min with
        | some d => { longest with run_min := some ((longest.run_min.map (max · d)).getD d) }
        | none => longest
      else if w.activity_type.toLower = "ride" then
        match dur_min with
        | some d => { longest with ride_min := some ((longest.ride_min.map (max · d)).getD d) }
        | none => longest
      else longest)
    { run_min := none, ride_min := none }

/-- Rust `TrainingContext::compute`: the rolling context at day `now`. -/
def TrainingContext.compute (now : Int) (workouts : List WorkoutSummary)
    (settings : UserSettings) : TrainingContext :=
  let days_7 := workouts.filter fun w => now - w.started_at < 7
  let days_14 := workouts.filter fun w => now - w.started_at < 14
  let days_28 := workouts.filter fun w => now - w.started_at < 28
  let days_42 := workouts.filter fun w => now - w.started_at < 42
  let atl := compute_rtss_sum days_7
  let ctl := compute_rtss_avg days_42 42
  let tsb : Option ℚ :=
    match ctl, atl with
    | some c, some a => some (c - a / 7)
    | _, _ => none
  let weekly_volume := compute_weekly_volume days_7
  let this_week_volume := weekly_volume.total_hrs
  let last_week_volume :=
    (compute_weekly_volume (days_14.filter fun w => now - w.started_at ≥ 7)).total_hrs
  let week_over_week_delta_pct : Option ℚ :=
    if last_week_volume > 0 then
      some ((this_week_volume - last_week_volume) / last_week_volume * 100)
    else if this_week_volume > 0 then some 100
    else none
  let intensity_distribution := compute_intensity_distribution days_7
  let longest_session := compute_longest_session days_28
  let expected_workouts_28d : ℚ := (settings.training_days_per_week : ℚ) * 4
  let actual_workouts_28d : ℚ := (days_28.length : ℚ)
  let consistency_pct : Option ℚ :=
    if expected_workouts_28d > 0 then
      some (actual_workouts_28d / expected_workouts_28d * 100)
    else none
  { atl := atl
    ctl := ctl
    tsb := tsb
    weekly_volume := weekly_volume
    week_over_week_delta_pct := week_over_week_delta_pct
    intensity_distribution := intensity_distribution
    longest_session := longest_session
    consistency_pct := consistency_pct
    workouts_this_week := (days_7.length : Int) }

/-- Rust `TrainingFlags`: boolean alerts; an input of the decision engine. -/
structure TrainingFlags where
  volume_spike : Bool
  volume_drop : Bool
  high_fatigue : Bool
  peak_form : Bool
  long_run_gap : Bool
  long_ride_gap : Bool
  intensity_heavy : Bool
  polarized_training : Bool
deriving DecidableEq

/-! ### Progression decision engine (`progression.rs`) -/

/-- Rust `is_key_session_dimension`: dimensions counted as key sessions. -/
def is_key_session_dimension (name : String) : Bool :=
  name == "long_run"

/-- Rust `ProgressionSummary`: the aggregate engine output. -/
structure ProgressionSummary where
  dimensions : List DimensionStatus
  last_progression_dimension : Option String
  days_since_any_progression : Int
  adherence : AdherenceSummary
deriving DecidableEq

/-- Rust `ProgressionSummary::check_criteria`: dimension-specific progression criteria. -/
def ProgressionSummary.check_criteria (name : String) (dim : ProgressionDimension)
    (context : TrainingContext) (flags : TrainingFlags) (now : Int) : Bool × String :=
  let days_since_change := dim.days_since_change now
  let min_days : Int := 7
  let volume_stable := !flags.volume_spike && !flags.volume_drop
  let fatigue_pair : Bool × ℚ :=
    match name with
    | "run_interval" => (context.tsb.all fun t => decide (t > -15), -15)
    | "long_run" => (context.tsb.all fun t => decide (t > -15), -15)
    | _ => (context.tsb.all fun t => decide (t > -10), -10)
  let fatigue_low := fatigue_pair.1
  let fatigue_threshold := fatigue_pair.2
  let hr_stability := if name = "run_interval" then !flags.intensity_heavy else true
  let criteria_met :=
    decide (days_since_change ≥ min_days) && volume_stable && fatigue_low && hr_stability
  if criteria_met then (true, "All criteria met")
  else
    let reasons : List String :=
      (if days_since_change < min_days then
        [toString days_since_change ++ " days since last change (need " ++
          toString min_days ++ ")"]
      else []) ++
      (if !volume_stable then ["volume unstable"] else []) ++
      (if !fatigue_low then
        ["TSB too low (" ++ toString (context.tsb.getD 0) ++ ", need > " ++
          toString fatigue_threshold ++ ")"]
      else []) ++
      (if !hr_stability then ["HR/intensity unstable"] else [])
    (false, String.intercalate ", " reasons)

/-- Rust `ProgressionSummary::build_dimension_status`: the per-dimension decision. -/
def ProgressionSummary.build_dimension_status (now : Int) (dim : ProgressionDimension)
    (context : TrainingContext) (flags : TrainingFlags) (adherence : AdherenceSummary)
    (last_prog_dim : Option String) (days_since_any : Int) : DimensionStatus :=
  let dim_type := dim.dimension_type
  if dim_type = DimensionType.regulated then
    let regulated_duration := dim.get_regulated_duration context.tsb
    let tsb_desc :=
      match context.tsb with
      | some t => if t ≥ 0 then "fresh" else if t ≥ -10 then "moderate fatigue" else "fatigued"
      | none => "unknown fatigue"
    { name := dim.name
      dimension_type := dim_type
      current := dim.current_value
      ceiling := dim.ceiling_value
      status := LifecycleStatus.atCeiling
      engine_decision := EngineDecision.regulated
      reason := "Duration regulated by TSB (" ++ tsb_desc ++ "): " ++
        toString (regulated_duration.getD 45) ++ " min recommended"
      next_value := none
      days_since_change := dim.days_since_change now
      maintenance_due := false
      regulated_duration := regulated_duration }
  else
    let is_at_ceiling := dim.is_at_ceiling
    let maintenance_due := dim.maintenance_due now
    let should_regress := dim.should_regress now
    let crit := check_criteria dim.name dim context flags now
    let criteria_met := crit.1
    let criteria_reason := crit.2
    let overlap_blocked :=
      last_prog_dim.any fun last => last != dim.name && decide (days_since_any < 7)
    let dr : EngineDecision × String :=
      if should_regress then
        (.regress, "Have not touched ceiling in " ++
          toString ((dim.last_ceiling_touch_at.map fun d => now - d).getD 0) ++
          " days, stepping back")
      else if adherence.should_consider_regression && dim.prev_value.isSome then
        (.regress, toString adherence.consecutive_low_adherence_weeks ++
          " consecutive low-adherence weeks")
      else if is_at_ceiling then
        if maintenance_due then
          (.maintenanceDue, "At ceiling (" ++ dim.ceiling_value ++
            "), maintenance due - touch this level soon")
        else
          (.atCeiling, "At ceiling (" ++ dim.ceiling_value ++ "), maintaining")
      else if adherence.is_unstable then
        (.holdDueToUnstableWeek, "Week had " ++
          toString (rat_trunc (adherence.adherence_pct * 100)) ++ "% adherence (need 70%)")
      else if !adherence.key_adherence_good && is_key_session_dimension dim.name then
        (.holdDueToMissedKeySession, "Key session missed this week")
      else if overlap_blocked then
        (.holdForNow, "Another dimension progressed " ++ toString days_since_any ++
          " days ago (need 7)")
      else if !criteria_met then (.hold, criteria_reason)
      else if !adherence.week_stable then
        (.holdForNow, "Week not stable (missed sessions or low adherence)")
      else (.progressAllowed, "All criteria met")
    { name := dim.name
      dimension_type := dim_type
      current := dim.current_value
      ceiling := dim.ceiling_value
      status := dim.status
      engine_decision := dr.1
      reason := dr.2
      next_value := dim.next_value
      days_since_change := dim.days_since_change now
      maintenance_due := maintenance_due
      regulated_duration := none }

/-- Rust `ProgressionSummary::compute`: the batch summary over all dimensions. -/
def ProgressionSummary.compute (now : Int) (dimensions : List ProgressionDimension)
    (context : TrainingContext) (flags : TrainingFlags) (adherence : AdherenceSummary) :
    ProgressionSummary :=
  let most_recent :=
    (dimensions.filterMap fun d => d.last_change_at.map fun dt => (d.name, dt)).foldl
      (fun acc p =>
        match acc with
        | none => some p
        | some q => if p.2 ≥ q.2 then some p else some q)
      none
  let last_progression_dimension := most_recent.map (·.1)
  let days_since_any_progression := (most_recent.map fun p => now - p.2).getD 30
  let dimension_statuses := dimensions.map fun dim =>
    build_dimension_status now dim context flags adherence last_progression_dimension
      days_since_any_progression
  { dimensions := dimension_statuses
    last_progression_dimension := last_progression_dimension
    days_since_any_progression := days_since_any_progression
    adherence := adherence }

/-! ### Mutations (`progression.rs` database actions) -/

/-- Rust `ProgressionHistory`: one append-only audit row. -/
structure HistoryRecord where
  dimension_name : String
  previous_value : String
  new_value : String
  change_type : String
  trigger_workout_id : Option Int
  context_json : Option String
deriving DecidableEq

/-- The persisted state touched by a mutation: the dimension plus its history log. -/
structure EngineState where
  dim : ProgressionDimension
  history : List HistoryRecord
deriving DecidableEq

/-- Rust `apply_progression`: advance a dimension one step. On error the state is returned
unchanged, mirroring the Rust early return before any write. -/
def apply_progression (now : Int) (st : EngineState) (trigger_workout_id : Option Int) :
    EngineState × Except String String :=
  match st.dim.next_value with
  | none => (st, .error ("No next value available for " ++ st.dim.name))
  | some next_val =>
    let prev_val := st.dim.current_value
    let dim := { st.dim with current_value := next_val, last_change_at := some now }
    let dim :=
      if dim.is_at_ceiling then
        { dim with status := LifecycleStatus.atCeiling, last_ceiling_touch_at := some now }
      else dim
    let dim := { dim with updated_at := now }
    ({ dim := dim
       history := st.history ++
         [{ dimension_name := st.dim.name
            previous_value := prev_val
            new_value := next_val
            change_type := "progress"
            trigger_workout_id := trigger_workout_id
            context_json := none }] },
     .ok next_val)

/-- Rust `record_ceiling_touch`: stamp a maintenance touch. Valid only at ceiling. -/
def record_ceiling_touch (now : Int) (st : EngineState) :
    EngineState × Except String Unit :=
  if st.dim.status ≠ LifecycleStatus.atCeiling then
    (st, .error (st.dim.name ++ " is not at ceiling"))
  else
    let dim := { st.dim with last_ceiling_touch_at := some now, updated_at := now }
    ({ dim := dim
       history := st.history ++
         [{ dimension_name := st.dim.name
            previous_value := st.dim.current_value
            new_value := st.dim.current_value
            change_type := "ceiling_touch"
            trigger_workout_id := none
            context_json := none }] },
     .ok ())

/-- Rust `apply_regression`: step a dimension back one notch. -/
def apply_regression (now : Int) (st : EngineState) :
    EngineState × Except String String :=
  match st.dim.prev_value with
  | none => (st, .error ("No previous value available for " ++ st.dim.name))
  | some prev_val =>
    let old_val := st.dim.current_value
    let dim := { st.dim with
      current_value := prev_val
      last_change_at := some now
      status := LifecycleStatus.building
      updated_at := now }
    ({ dim := dim
       history := st.history ++
         [{ dimension_name := st.dim.name
            previous_value := old_val
            new_value := prev_val
            change_type := "regress"
            trigger_workout_id := none
            context_json := none }] },
     .ok prev_val)

/-- Rust `update_ceiling`: change the ceiling and re-derive the lifecycle status. -/
def update_ceiling (now : Int) (st : EngineState) (new_ceiling : String) :
    EngineState × Except String Unit :=
  let old_ceiling := st.dim.ceiling_value
  let dim := { st.dim with ceiling_value := new_ceiling }
  let dim :=
    if dim.is_at_ceiling then { dim with status := LifecycleStatus.atCeiling }
    else { dim with status := LifecycleStatus.building }
  let dim := { dim with updated_at := now }
  ({ dim := dim
     history := st.history ++
       [{ dimension_name := st.dim.name
          previous_value := old_ceiling
          new_value := new_ceiling
          change_type := "ceiling_update"
          trigger_workout_id := none
          context_json := none }] },
   .ok ())

/-! ### Adherence computation (`commands/analysis.rs`) -/

/-- Rust `compute_adherence`: the shipped adherence pipeline over the current-week workout
rows `(activity_type, duration_seconds)`. The consecutive-low-adherence-week count is
hard-coded to 0 in the source. -/
def compute_adherence (rows : List (String × Option Int)) (settings : UserSettings) :
    AdherenceSummary :=
  let total_completed : Nat := rows.length % 256
  let total_expected : Nat := (settings.training_days_per_week % 256).toNat
  let key_expected : Nat := 1
  let key_completed : Nat :=
    (rows.filter fun r =>
      r.1.toLower == "run" && (r.2.map fun d => decide (d > 45 * 60)).getD false).length % 256
  let consecutive_low_weeks : Nat := 0
  AdherenceSummary.compute total_expected total_completed key_expected key_completed
    consecutive_low_weeks

/-! ### Spec-side reference definitions -/

/-- Modelled from the spec: the ordering induced by a `StepConfig` — list position for
`Sequence`, numeric order for `Increment`; `Regulated` values never move, so the
trivial order is used. -/
def spec_value_le (cfg : StepConfig) (a b : String) : Bool :=
  match cfg with
  | .sequence seq =>
    match position? (· == a) seq, position? (· == b) seq with
    | some i, some j => decide (i ≤ j)
    | _, _ => false
  | .increment _ _ =>
    match parse_i32 a, parse_i32 b with
    | some x, some y => decide (x ≤ y)
    | _, _ => false
  | .regulated _ _ => true

/-- Modelled from the spec: the decision precedence list for a progressive dimension,
first match wins — (1) should_regress, (2) 2+ low-adherence weeks with a prior value,
(3) at ceiling, (4) unstable week, (5) missed key session, (6) overlap rule,
(7) own criteria unmet, (8) week not fully stable, (9) progress allowed. -/
def spec_decision (now : Int) (dim : ProgressionDimension) (context : TrainingContext)
    (flags : TrainingFlags) (adherence : AdherenceSummary) (last_prog_dim : Option String)
    (days_since_any : Int) : EngineDecision :=
  if dim.should_regress now then .regress
  else if adherence.should_consider_regression && dim.prev_value.isSome then .regress
  else if dim.is_at_ceiling then
    if dim.maintenance_due now then .maintenanceDue else .atCeiling
  else if adherence.is_unstable then .holdDueToUnstableWeek
  else if !adherence.key_adherence_good && is_key_session_dimension dim.name then
    .holdDueToMissedKeySession
  else if last_prog_dim.any fun last => last != dim.name && decide (days_since_any < 7) then
    .holdForNow
  else if !(ProgressionSummary.check_criteria dim.name dim context flags now).1 then .hold
  else if !adherence.week_stable then .holdForNow
  else .progressAllowed

/-- One successful progress or regress mutation taking dimension `d` to `d'`. -/
def ProgressionStep (d d' : ProgressionDimension) : Prop :=
  (∃ now h trig st' v,
    apply_progression now ⟨d, h⟩ trig = (st', Except.ok v) ∧ st'.dim = d') ∨
  (∃ now h st' v,
    apply_regression now ⟨d, h⟩ = (st', Except.ok v) ∧ st'.dim = d')

/-- Well-formed value state for the amended ceiling invariant: sequence values lie in
the configured list; increment values parse as i32, the increment is positive, and
ceiling minus current is a multiple of the increment. -/
def ConfigWF (d : ProgressionDimension) : Prop :=
  match d.step_config with
  | .sequence seq => d.current_value ∈ seq ∧ d.ceiling_value ∈ seq
  | .increment inc _ => 0 < inc ∧
      ∃ c k, parse_i32 d.current_value = some c ∧ parse_i32 d.ceiling_value = some k ∧
        inc ∣ (k - c)
  | .regulated _ _ => True

/-! ### Concrete instances used in counterexamples and witnesses -/

/-- An all-zero training context (only the fields a given claim reads matter). -/
def ctx0 : TrainingContext :=
  { atl := none, ctl := none, tsb := none
    weekly_volume := { total_hrs := 0, run_hrs := 0, ride_hrs := 0, other_hrs := 0 }
    week_over_week_delta_pct := none
    intensity_distribution := { z1_pct := 0, z2_pct := 0, z3_pct := 0, z4_pct := 0, z5_pct := 0 }
    longest_session := { run_min := none, ride_min := none }
    consistency_pct := none, workouts_this_week := 0 }

/-- No flags raised. -/
def flags0 : TrainingFlags :=
  { volume_spike := false, volume_drop := false, high_fatigue := false, peak_form := false
    long_run_gap := false, long_ride_gap := false, intensity_heavy := false
    polarized_training := false }

/-- The Rust `AdherenceSummary::default()`: a fully adherent week. -/
def adherence_default : AdherenceSummary :=
  { total_expected := 6, total_completed := 6, key_expected := 3, key_completed := 3
    adherence_pct := 1, key_adherence_good := true, week_stable := true
    missed_workouts := 0, consecutive_low_adherence_weeks := 0 }

/-- Increment dimension two minutes below its ceiling with a five-minute step. -/
def dimC2 : ProgressionDimension :=
  { id := 1, name := "long_run", current_value := "88", ceiling_value := "90"
    step_config := .increment 5 "min", status := .building
    last_change_at := none, last_ceiling_touch_at := none
    maintenance_cadence_days := 14, created_at := 0, updated_at := 0 }

/-- Aligned increment dimension (30 → 90 in steps of 5). -/
def dimC2W : ProgressionDimension :=
  { id := 2, name := "long_run", current_value := "30", ceiling_value := "90"
    step_config := .increment 5 "min", status := .building
    last_change_at := none, last_ceiling_touch_at := none
    maintenance_cadence_days := 14, created_at := 0, updated_at := 0 }

/-- The state of `dimC2W` after one successful progress mutation at day 0. -/
def dimC2W' : ProgressionDimension :=
  { dimC2W with current_value := "35", last_change_at := some 0, updated_at := 0 }

/-- Sequence dimension at its floor (no previous value). -/
def dimC3 : ProgressionDimension :=
  { id := 3, name := "run_interval", current_value := "4:1", ceiling_value := "5:1"
    step_config := .sequence ["4:1", "5:1"], status := .building
    last_change_at := none, last_ceiling_touch_at := none
    maintenance_cadence_days := 7, created_at := 0, updated_at := 0 }

/-- Regulated dimension with a single configured option. -/
def dimC4 : ProgressionDimension :=
  { id := 4, name := "z2_ride", current_value := "45", ceiling_value := "60"
    step_config := .regulated [60] "min", status := .atCeiling
    last_change_at := none, last_ceiling_touch_at := none
    maintenance_cadence_days := 10, created_at := 0, updated_at := 0 }

/-- Regulated dimension with the seeded two ascending options. -/
def dimC4W : ProgressionDimension :=
  { id := 5, name := "z2_ride", current_value := "45", ceiling_value := "60"
    step_config := .regulated [45, 60] "min", status := .atCeiling
    last_change_at := none, last_ceiling_touch_at := none
    maintenance_cadence_days := 10, created_at := 0, updated_at := 0 }

/-- Training context with a fresh TSB of 5. -/
def ctxC4W : TrainingContext := { ctx0 with tsb := some 5 }

/-- At-ceiling sequence dimension whose ceiling was touched 5 days before day 30. -/
def dimC7 : ProgressionDimension :=
  { id := 7, name := "run_interval", current_value := "5:1", ceiling_value := "5:1"
    step_config := .sequence ["4:1", "5:1"], status := .atCeiling
    last_change_at := some 0, last_ceiling_touch_at := some 25
    maintenance_cadence_days := 7, created_at := 0, updated_at := 0 }

/-- Adherence record reporting two consecutive low-adherence weeks. -/
def adhC7 : AdherenceSummary :=
  { adherence_default with consecutive_low_adherence_weeks := 2 }

/-- Increment dimension whose current value does not parse as an integer. -/
def dimC9 : ProgressionDimension :=
  { id := 9, name := "mobility", current_value := "abc", ceiling_value := "90"
    step_config := .increment 5 "min", status := .building
    last_change_at := some 20, last_ceiling_touch_at := none
    maintenance_cadence_days := 14, created_at := 0, updated_at := 0 }

/-- Training context with a neutral TSB. -/
def ctxC9 : TrainingContext := { ctx0 with tsb := some 0 }

/-- At-ceiling sequence dimension untouched for 25 days as of day 30. -/
def dimC10 : ProgressionDimension :=
  { id := 10, name := "run_interval", current_value := "5:1", ceiling_value := "5:1"
    step_config := .sequence ["4:1", "5:1"], status := .atCeiling
    last_change_at := some 0, last_ceiling_touch_at := some 5
    maintenance_cadence_days := 7, created_at := 0, updated_at := 0 }

/-- User settings with an explicit threshold HR of 170. -/
def settingsC6 : UserSettings :=
  { max_hr := none, lthr := some 170, ftp := none, training_days_per_week := 6 }

/-- Default-like user settings. -/
def settings0 : UserSettings :=
  { max_hr := some 190, lthr := some 170, ftp := none, training_days_per_week := 6 }

/-- A single scored run two days before day 30. -/
def workoutsC5 : List WorkoutSummary :=
  [{ started_at := 28, activity_type := "run", duration_seconds := some 3600
     rtss := some 50, hr_zone := some .z2 }]

/-! ### Helper lemmas: decimal round trip -/

theorem digitChar_isDigit {d : Nat} (h : d < 10) : (digitChar d).isDigit = true := by
  interval_cases d <;> decide

theorem digitVal_digitChar {d : Nat} (h : d < 10) : digitVal (digitChar d) = d := by
  interval_cases d <;> decide

theorem ne_minus_of_isDigit {c : Char} (h : c.isDigit = true) : ¬ c = '-' := by
  intro e; subst e; exact absurd h (by decide)

theorem ne_plus_of_isDigit {c : Char} (h : c.isDigit = true) : ¬ c = '+' := by
  intro e; subst e; exact absurd h (by decide)

theorem natToDigits_ne_nil (n : Nat) : natToDigits n ≠ [] := by
  rw [natToDigits]; split <;> simp

theorem natToDigits_all_isDigit (n : Nat) : (natToDigits n).all Char.isDigit = true := by
  induction n using Nat.strong_induction_on with
  | _ n ih =>
    rw [natToDigits]
    split
    · next h => simp [digitChar_isDigit h]
    · next h =>
      have hlt : n / 10 < n := Nat.div_lt_self (by omega) (by omega)
      have hm : n % 10 < 10 := Nat.mod_lt n (by omega)
      simp [List.all_append, ih _ hlt, digitChar_isDigit hm]

theorem foldl_natToDigits (n : Nat) :
    (natToDigits n).foldl (fun a c => 10 * a + digitVal c) 0 = n := by
  induction n using Nat.strong_induction_on with
  | _ n ih =>
    rw [natToDigits]
    split
    · next h => simp [digitVal_digitChar h]
    · next h =>
      have hlt : n / 10 < n := Nat.div_lt_self (by omega) (by omega)
      have hm : n % 10 < 10 := Nat.mod_lt n (by omega)
      rw [List.foldl_append, ih _ hlt]
      simp [digitVal_digitChar hm]
      omega

theorem parseDigits?_natToDigits (n : Nat) : parseDigits? (natToDigits n) = some n := by
  rw [parseDigits?, if_pos ⟨natToDigits_ne_nil n, natToDigits_all_isDigit n⟩,
    foldl_natToDigits]

theorem parse_i32_i32_to_string {n : Int} (h1 : -2147483648 ≤ n) (h2 : n ≤ 2147483647) :
    parse_i32 (i32_to_string n) = some n := by
  rw [i32_to_string]
  by_cases hn : n < 0
  · have habs : ((n.natAbs : Int)) = -n := Int.ofNat_natAbs_of_nonpos (le_of_lt hn)
    rw [if_pos hn]
    show parse_i32_chars ('-' :: natToDigits n.natAbs) = some n
    rw [parse_i32_chars, if_pos rfl, parseDigits?_natToDigits]
    simp only [Option.some_bind]
    rw [if_pos (by omega)]
    congr 1
    omega
  · have habs : ((n.natAbs : Int)) = n := Int.natAbs_of_nonneg (by omega)
    rw [if_neg hn]
    show parse_i32_chars (natToDigits n.natAbs) = some n
    obtain ⟨c, rest, hcr⟩ := List.exists_cons_of_ne_nil (natToDigits_ne_nil n.natAbs)
    have hdig : c.isDigit = true := by
      have hall := natToDigits_all_isDigit n.natAbs
      rw [hcr, List.all_cons, Bool.and_eq_true] at hall
      exact hall.1
    rw [hcr, parse_i32_chars, if_neg (ne_minus_of_isDigit hdig),
      if_neg (ne_plus_of_isDigit hdig), ← hcr, parseDigits?_natToDigits]
    simp only [Option.some_bind]
    rw [if_pos (by omega)]
    congr 1

theorem parse_i32_range {s : String} {n : Int} (h : parse_i32 s = some n) :
    -2147483648 ≤ n ∧ n ≤ 2147483647 := by
  rw [parse_i32] at h
  rcases hd : s.data with _ | ⟨c, rest⟩ <;> rw [hd] at h
  · exact absurd h (by simp [parse_i32_chars])
  · rw [parse_i32_chars] at h
    by_cases h1 : c = '-'
    · rw [if_pos h1] at h
      rcases hpd : parseDigits? rest with _ | m <;> rw [hpd] at h
      · exact absurd h (by simp)
      · simp only [Option.some_bind] at h
        split_ifs at h with hr
        cases h
        have h0 : (0 : Int) ≤ (m : Int) := Int.ofNat_nonneg m
        omega
    · rw [if_neg h1] at h
      by_cases h2 : c = '+'
      · rw [if_pos h2] at h
        rcases hpd : parseDigits? rest with _ | m <;> rw [hpd] at h
        · exact absurd h (by simp)
        · simp only [Option.some_bind] at h
          split_ifs at h with hr
          cases h
          have h0 : (0 : Int) ≤ (m : Int) := Int.ofNat_nonneg m
          omega
      · rw [if_neg h2] at h
        rcases hpd : parseDigits? (c :: rest) with _ | m <;> rw [hpd] at h
        · exact absurd h (by simp)
        · simp only [Option.some_bind] at h
          split_ifs at h with hr
          cases h
          have h0 : (0 : Int) ≤ (m : Int) := Int.ofNat_nonneg m
          omega

/-! ### Helper lemmas: position? -/

theorem position?_eq_some {α : Type} {p : α → Bool} {l : List α} {i : Nat}
    (h : position? p l = some i) :
    i < l.length ∧ ∃ x, l.get? i = some x ∧ p x = true := by
  induction l generalizing i with
  | nil => exact absurd h (by simp [position?])
  | cons a t ih =>
    rw [position?] at h
    split at h
    · next hpa =>
      cases h
      exact ⟨by simp, a, rfl, hpa⟩
    · next hpa =>
      obtain ⟨j, hj, hji⟩ := Option.map_eq_some'.mp h
      obtain ⟨hlen, x, hx, hpx⟩ := ih hj
      subst hji
      exact ⟨by simpa using hlen, x, by simpa using hx, hpx⟩

theorem position?_le {α : Type} {p : α → Bool} {l : List α} {i : Nat} {x : α}
    (hg : l.get? i = some x) (hp : p x = true) :
    ∃ j, position? p l = some j ∧ j ≤ i := by
  induction l generalizing i with
  | nil => exact absurd hg (by simp)
  | cons a t ih =>
    rw [position?]
    by_cases hpa : p a = true
    · exact ⟨0, by simp [hpa], Nat.zero_le _⟩
    · cases i with
      | zero =>
        simp only [List.get?] at hg
        cases hg
        exact absurd hp hpa
      | succ i =>
        simp only [List.get?] at hg
        obtain ⟨j, hj, hle⟩ := ih hg
        refine ⟨j + 1, ?_, by omega⟩
        rw [if_neg (by simp [hpa]), hj]
        rfl

theorem position?_of_mem {α : Type} [BEq α] [LawfulBEq α] {x : α} {l : List α}
    (h : x ∈ l) : ∃ j, position? (· == x) l = some j := by
  obtain ⟨i, hi⟩ := List.get?_of_mem h
  obtain ⟨j, hj, _⟩ := @position?_le α (· == x) l i x hi (by simp)
  exact ⟨j, hj⟩

/-! ### Helper lemmas: sorted option lists -/

theorem sorted_head?_le {l : List Int} (hs : l.Sorted (· ≤ ·)) {h x : Int}
    (hh : l.head? = some h) (hx : x ∈ l) : h ≤ x := by
  cases l with
  | nil => exact absurd hh (by simp)
  | cons a t =>
    simp only [List.head?_cons, Option.some.injEq] at hh
    subst hh
    rcases List.mem_cons.mp hx with rfl | hxt
    · exact le_refl _
    · exact (List.sorted_cons.mp hs).1 x hxt

theorem sorted_le_getLast? {l : List Int} (hs : l.Sorted (· ≤ ·)) {g x : Int}
    (hg : l.getLast? = some g) (hx : x ∈ l) : x ≤ g := by
  induction l with
  | nil => exact absurd hg (by simp)
  | cons a t ih =>
    cases t with
    | nil =>
      simp only [List.getLast?_singleton, Option.some.injEq] at hg
      subst hg
      have hxa : x = a := by simpa using hx
      exact le_of_eq hxa
    | cons b t' =>
      rw [List.getLast?_cons_cons] at hg
      have hs' := (List.sorted_cons.mp hs).2
      rcases List.mem_cons.mp hx with rfl | hxt
      · have hgmem : g ∈ b :: t' := by
          have := List.mem_getLast?_eq_getLast (l := b :: t') (x := g) hg
          obtain ⟨hne, rfl⟩ := this
          exact List.getLast_mem hne
        exact (List.sorted_cons.mp hs).1 g hgmem
      · exact ih hs' hg hxt

/-! ### C3: failing mutations are no-ops, errors exactly at failed preconditions -/

/-- C3: `progress` errs iff there is no next value, `regress` errs iff there is no
previous value, and `touch_ceiling` errs iff the dimension is not AtCeiling; on every
error the stored state (values, status, timestamps, history) is returned unchanged. -/
theorem mutation_error_iff_noop (now : Int) (st : EngineState) (trig : Option Int) :
    ((apply_progression now st trig).2.isOk = st.dim.next_value.isSome) ∧
    ((apply_progression now st trig).2.isOk = false → (apply_progression now st trig).1 = st) ∧
    ((apply_regression now st).2.isOk = st.dim.prev_value.isSome) ∧
    ((apply_regression now st).2.isOk = false → (apply_regression now st).1 = st) ∧
    ((record_ceiling_touch now st).2.isOk =
      decide (st.dim.status = LifecycleStatus.atCeiling)) ∧
    ((record_ceiling_touch now st).2.isOk = false → (record_ceiling_touch now st).1 = st) := by
  refine ⟨?_, ?_, ?_, ?_, ?_, ?_⟩
  · rw [apply_progression]
    rcases st.dim.next_value with _ | v <;> simp [Except.isOk, Except.toBool]
  · rw [apply_progression]
    rcases st.dim.next_value with _ | v <;> simp [Except.isOk, Except.toBool]
  · rw [apply_regression]
    rcases st.dim.prev_value with _ | v <;> simp [Except.isOk, Except.toBool]
  · rw [apply_regression]
    rcases st.dim.prev_value with _ | v <;> simp [Except.isOk, Except.toBool]
  · rw [record_ceiling_touch]
    by_cases hs : st.dim.status = LifecycleStatus.atCeiling
    · rw [if_neg (by simp [hs])]
      simp [Except.isOk, Except.toBool, hs]
    · rw [if_pos (by simp [hs])]
      simp [Except.isOk, Except.toBool, hs]
  · rw [record_ceiling_touch]
    by_cases hs : st.dim.status = LifecycleStatus.atCeiling
    · rw [if_neg (by simp [hs])]
      simp [Except.isOk, Except.toBool]
    · rw [if_pos (by simp [hs])]
      simp

/-- Witness for C3: a regression on a sequence dimension already at its floor fails
and leaves the state untouched. -/
theorem mutation_error_iff_noop_witness :
    (apply_regression 0 ⟨dimC3, []⟩).2.isOk = false ∧
    (apply_regression 0 ⟨dimC3, []⟩).1 = ⟨dimC3, []⟩ := by
  have h := mutation_error_iff_noop 0 ⟨dimC3, []⟩ none
  have hprev : (⟨dimC3, []⟩ : EngineState).dim.prev_value = none := by
    simp [dimC3, ProgressionDimension.prev_value, StepConfig.prev_value, position?]
  have hok : (apply_regression 0 ⟨dimC3, []⟩).2.isOk = false := by
    rw [h.2.2.1, hprev]
    rfl
  exact ⟨hok, h.2.2.2.1 hok⟩

/-! ### Helper lemmas: successful mutations -/

theorem apply_progression_ok {now : Int} {st st' : EngineState} {trig : Option Int}
    {v : String} (h : apply_progression now st trig = (st', Except.ok v)) :
    st.dim.next_value = some v ∧
    st'.dim.current_value = v ∧
    st'.dim.ceiling_value = st.dim.ceiling_value ∧
    st'.dim.step_config = st.dim.step_config := by
  rw [apply_progression] at h
  rcases hnv : st.dim.next_value with _ | nv <;> rw [hnv] at h <;>
    simp only [Prod.mk.injEq] at h
  · exact absurd h.2 (by simp)
  · obtain ⟨hst, hv⟩ := h
    obtain rfl : nv = v := by injection hv
    subst hst
    refine ⟨rfl, ?_, ?_, ?_⟩ <;> dsimp only <;> split <;> rfl

theorem apply_regression_ok {now : Int} {st st' : EngineState} {v : String}
    (h : apply_regression now st = (st', Except.ok v)) :
    st.dim.prev_value = some v ∧
    st'.dim.current_value = v ∧
    st'.dim.ceiling_value = st.dim.ceiling_value ∧
    st'.dim.step_config = st.dim.step_config := by
  rw [apply_regression] at h
  rcases hpv : st.dim.prev_value with _ | pv <;> rw [hpv] at h <;>
    simp only [Prod.mk.injEq] at h
  · exact absurd h.2 (by simp)
  · obtain ⟨hst, hv⟩ := h
    obtain rfl : pv = v := by injection hv
    subst hst
    exact ⟨rfl, rfl, rfl, rfl⟩

theorem regulated_next_value_none {d : ProgressionDimension} {o : List Int} {u : String}
    (hcfg : d.step_config = StepConfig.regulated o u) : d.next_value = none := by
  rw [ProgressionDimension.next_value, ProgressionDimension.is_at_ceiling, hcfg]
  simp [StepConfig.is_at_ceiling]

theorem regulated_prev_value_none {d : ProgressionDimension} {o : List Int} {u : String}
    (hcfg : d.step_config = StepConfig.regulated o u) : d.prev_value = none := by
  rw [ProgressionDimension.prev_value, hcfg, StepConfig.prev_value]

theorem sequence_next_facts {d : ProgressionDimension} {seq : List String} {v : String}
    (hcfg : d.step_config = StepConfig.sequence seq)
    (hnv : d.next_value = some v)
    (hcm : d.current_value ∈ seq) (hkm : d.ceiling_value ∈ seq) :
    ∃ i j, position? (· == d.current_value) seq = some i ∧
      position? (· == d.ceiling_value) seq = some j ∧
      i < j ∧ seq.get? (i + 1) = some v := by
  obtain ⟨i, hi⟩ := position?_of_mem hcm
  obtain ⟨j, hj⟩ := position?_of_mem hkm
  rw [ProgressionDimension.next_value] at hnv
  split at hnv
  · exact absurd hnv (by simp)
  · next hac =>
    rw [ProgressionDimension.is_at_ceiling, hcfg] at hac
    rw [StepConfig.is_at_ceiling] at hac
    rw [hi, hj] at hac
    simp only [decide_eq_true_eq] at hac
    have hij : i < j := by omega
    rw [hcfg, StepConfig.next_value, hi] at hnv
    simp only [Option.some_bind] at hnv
    exact ⟨i, j, hi, hj, hij, hnv⟩

theorem increment_next_facts {d : ProgressionDimension} {inc : Int} {u v : String}
    {c k : Int}
    (hcfg : d.step_config = StepConfig.increment inc u)
    (hnv : d.next_value = some v)
    (hc : parse_i32 d.current_value = some c)
    (hk : parse_i32 d.ceiling_value = some k) :
    c < k ∧ v = i32_to_string (c + inc) := by
  rw [ProgressionDimension.next_value] at hnv
  split at hnv
  · exact absurd hnv (by simp)
  · next hac =>
    rw [ProgressionDimension.is_at_ceiling, hcfg] at hac
    rw [StepConfig.is_at_ceiling] at hac
    rw [hc, hk] at hac
    simp only [Option.getD_some, decide_eq_true_eq] at hac
    have hlt : c < k := by omega
    rw [hcfg, StepConfig.next_value, hc] at hnv
    simp only [Option.map_some'] at hnv
    obtain rfl : i32_to_string (c + inc) = v := by injection hnv
    exact ⟨hlt, rfl⟩

theorem sequence_prev_facts {d : ProgressionDimension} {seq : List String} {v : String}
    (hcfg : d.step_config = StepConfig.sequence seq)
    (hpv : d.prev_value = some v) :
    ∃ i, position? (· == d.current_value) seq = some i ∧ 0 < i ∧
      seq.get? (i - 1) = some v := by
  rw [ProgressionDimension.prev_value, hcfg, StepConfig.prev_value] at hpv
  rcases hi : position? (· == d.current_value) seq with _ | i <;> rw [hi] at hpv
  · exact absurd hpv (by simp)
  · simp only [Option.some_bind] at hpv
    split at hpv
    · exact ⟨i, rfl, by omega, hpv⟩
    · exact absurd hpv (by simp)

theorem increment_prev_facts {d : ProgressionDimension} {inc : Int} {u v : String}
    {c : Int}
    (hcfg : d.step_config = StepConfig.increment inc u)
    (hpv : d.prev_value = some v)
    (hc : parse_i32 d.current_value = some c) :
    0 < c - inc ∧ v = i32_to_string (c - inc) := by
  rw [ProgressionDimension.prev_value, hcfg, StepConfig.prev_value, hc] at hpv
  simp only [Option.some_bind] at hpv
  split at hpv
  · next hpos =>
    obtain rfl : i32_to_string (c - inc) = v := by injection hpv
    exact ⟨hpos, rfl⟩
  · exact absurd hpv (by simp)

/-! ### C2: single-step preservation of the ceiling bound -/

theorem progression_step_preserves {d d' : ProgressionDimension}
    (hstep : ProgressionStep d d') (hwf : ConfigWF d)
    (hle : spec_value_le d.step_config d.current_value d.ceiling_value = true) :
    d'.step_config = d.step_config ∧ d'.ceiling_value = d.ceiling_value ∧
    ConfigWF d' ∧
    spec_value_le d'.step_config d'.current_value d'.ceiling_value = true := by
  have main : d'.step_config = d.step_config ∧ d'.ceiling_value = d.ceiling_value ∧
      (d.next_value = some d'.current_value ∨ d.prev_value = some d'.current_value) := by
    rcases hstep with ⟨now, hh, trig, st', v, heq, hdim⟩ | ⟨now, hh, st', v, heq, hdim⟩
    · obtain ⟨hnv, hcur, hceil, hcfg⟩ := apply_progression_ok heq
      subst hdim
      exact ⟨hcfg, hceil, Or.inl (hcur ▸ hnv)⟩
    · obtain ⟨hpv, hcur, hceil, hcfg⟩ := apply_regression_ok heq
      subst hdim
      exact ⟨hcfg, hceil, Or.inr (hcur ▸ hpv)⟩
  obtain ⟨hcfg, hceil, hmove⟩ := main
  refine ⟨hcfg, hceil, ?_⟩
  rcases hc : d.step_config with seq | ⟨inc, u⟩ | ⟨o, u⟩
  · -- Sequence
    simp only [ConfigWF, hc] at hwf
    obtain ⟨hcm, hkm⟩ := hwf
    obtain ⟨i, hi⟩ := position?_of_mem hcm
    obtain ⟨j, hj⟩ := position?_of_mem hkm
    simp only [spec_value_le, hc] at hle
    rw [hi, hj] at hle
    simp only [decide_eq_true_eq] at hle
    have hkm' : d'.ceiling_value ∈ seq := by rw [hceil]; exact hkm
    rcases hmove with hnv | hpv
    · obtain ⟨i', j', hi', hj', hij, hget⟩ := sequence_next_facts hc hnv hcm hkm
      rw [hi] at hi'
      rw [hj] at hj'
      obtain rfl : i = i' := by injection hi'
      obtain rfl : j = j' := by injection hj'
      have hvmem : d'.current_value ∈ seq := List.get?_mem hget
      obtain ⟨i2, hi2, hle2⟩ :=
        @position?_le String (· == d'.current_value) seq (i + 1) d'.current_value hget (by simp)
      constructor
      · simp only [ConfigWF, hcfg, hc]
        exact ⟨hvmem, hkm'⟩
      · simp only [spec_value_le, hcfg, hc, hceil]
        rw [hi2, hj]
        simp only [decide_eq_true_eq]
        omega
    · obtain ⟨i', hi', hpos, hget⟩ := sequence_prev_facts hc hpv
      rw [hi] at hi'
      obtain rfl : i = i' := by injection hi'
      have hvmem : d'.current_value ∈ seq := List.get?_mem hget
      obtain ⟨i2, hi2, hle2⟩ :=
        @position?_le String (· == d'.current_value) seq (i - 1) d'.current_value hget (by simp)
      constructor
      · simp only [ConfigWF, hcfg, hc]
        exact ⟨hvmem, hkm'⟩
      · simp only [spec_value_le, hcfg, hc, hceil]
        rw [hi2, hj]
        simp only [decide_eq_true_eq]
        omega
  · -- Increment
    simp only [ConfigWF, hc] at hwf
    obtain ⟨hinc, c, k, hcp, hkp, hdvd⟩ := hwf
    simp only [spec_value_le, hc] at hle
    rw [hcp, hkp] at hle
    simp only [decide_eq_true_eq] at hle
    have hcr := parse_i32_range hcp
    have hkr := parse_i32_range hkp
    have hkp' : parse_i32 d'.ceiling_value = some k := by rw [hceil]; exact hkp
    rcases hmove with hnv | hpv
    · obtain ⟨hlt, hveq⟩ := increment_next_facts hc hnv hcp hkp
      have hstep_le : inc ≤ k - c := Int.le_of_dvd (by omega) hdvd
      have hparse : parse_i32 d'.current_value = some (c + inc) := by
        rw [hveq]
        exact parse_i32_i32_to_string (by omega) (by omega)
      constructor
      · simp only [ConfigWF, hcfg, hc]
        refine ⟨hinc, c + inc, k, hparse, hkp', ?_⟩
        have hring : k - (c + inc) = (k - c) - inc := by ring
        rw [hring]
        exact dvd_sub hdvd (dvd_refl inc)
      · simp only [spec_value_le, hcfg, hc]
        rw [hparse, hkp']
        simp only [decide_eq_true_eq]
        omega
    · obtain ⟨hpos, hveq⟩ := increment_prev_facts hc hpv hcp
      have hparse : parse_i32 d'.current_value = some (c - inc) := by
        rw [hveq]
        exact parse_i32_i32_to_string (by omega) (by omega)
      constructor
      · simp only [ConfigWF, hcfg, hc]
        refine ⟨hinc, c - inc, k, hparse, hkp', ?_⟩
        have hring : k - (c - inc) = (k - c) + inc := by ring
        rw [hring]
        exact dvd_add hdvd (dvd_refl inc)
      · simp only [spec_value_le, hcfg, hc]
        rw [hparse, hkp']
        simp only [decide_eq_true_eq]
        omega
  · -- Regulated: no successful step exists
    rcases hmove with hnv | hpv
    · rw [regulated_next_value_none hc] at hnv
      exact absurd hnv (by simp)
    · rw [regulated_prev_value_none hc] at hpv
      exact absurd hpv (by simp)

/-- C2 (amended): for well-formed value state — sequence current/ceiling in the
configured list, or increment current/ceiling parsing with a positive step that
divides their distance — every chain of successful progress/regress mutations keeps
current_value at or below ceiling_value in the StepConfig ordering. -/
theorem ceiling_bound_invariant {d d' : ProgressionDimension}
    (hwf : ConfigWF d)
    (hle : spec_value_le d.step_config d.current_value d.ceiling_value = true)
    (hsteps : Relation.ReflTransGen ProgressionStep d d') :
    spec_value_le d'.step_config d'.current_value d'.ceiling_value = true := by
  have h : ConfigWF d' ∧
      spec_value_le d'.step_config d'.current_value d'.ceiling_value = true := by
    induction hsteps with
    | refl => exact ⟨hwf, hle⟩
    | tail hab hbc ih =>
      obtain ⟨hwfb, hleb⟩ := ih
      obtain ⟨-, -, hwf', hle'⟩ := progression_step_preserves hbc hwfb hleb
      exact ⟨hwf', hle'⟩
  exact h.2

theorem natToDigits_nine : natToDigits 9 = ['9'] := by
  rw [natToDigits]
  rfl

theorem natToDigits_three : natToDigits 3 = ['3'] := by
  rw [natToDigits]
  rfl

theorem natToDigits_ninety_three : natToDigits 93 = ['9', '3'] := by
  rw [natToDigits, dif_neg (by norm_num)]
  show natToDigits 9 ++ [digitChar 3] = ['9', '3']
  rw [natToDigits_nine]
  rfl

theorem natToDigits_thirty_five : natToDigits 35 = ['3', '5'] := by
  rw [natToDigits, dif_neg (by norm_num)]
  show natToDigits 3 ++ [digitChar 5] = ['3', '5']
  rw [natToDigits_three]
  rfl

theorem i32_to_string_ninety_three : i32_to_string 93 = "93" := by
  rw [i32_to_string, if_neg (by norm_num)]
  show (⟨natToDigits 93⟩ : String) = "93"
  rw [natToDigits_ninety_three]

theorem i32_to_string_thirty_five : i32_to_string 35 = "35" := by
  rw [i32_to_string, if_neg (by norm_num)]
  show (⟨natToDigits 35⟩ : String) = "35"
  rw [natToDigits_thirty_five]

/-- C2 counterexample: an Increment dimension at 88 with ceiling 90 and step 5 is
within its ceiling, yet one successful progress mutation moves it to 93, beyond the
ceiling in the StepConfig ordering. -/
theorem increment_overshoot_cex :
    spec_value_le dimC2.step_config dimC2.current_value dimC2.ceiling_value = true ∧
    (apply_progression 0 ⟨dimC2, []⟩ none).2 = Except.ok "93" ∧
    (apply_progression 0 ⟨dimC2, []⟩ none).1.dim.current_value = "93" ∧
    spec_value_le dimC2.step_config "93" dimC2.ceiling_value = false := by
  have hnv : dimC2.next_value = some "93" := by
    rw [ProgressionDimension.next_value, if_neg (by decide)]
    show (StepConfig.increment 5 "min").next_value "88" = some "93"
    rw [StepConfig.next_value]
    rw [show parse_i32 "88" = some 88 from by decide]
    simp only [Option.map_some']
    rw [show (88 : Int) + 5 = 93 from by norm_num, i32_to_string_ninety_three]
  refine ⟨by decide, ?_, ?_, by decide⟩
  · rw [apply_progression]
    dsimp only
    rw [hnv]
  · rw [apply_progression]
    dsimp only
    rw [hnv]
    dsimp only
    split <;> rfl

/-- Witness for C2 (amended): one progress step of an aligned increment dimension,
from 30 toward ceiling 90 in steps of 5, stays within the ceiling. -/
theorem ceiling_bound_invariant_witness :
    ConfigWF dimC2W ∧
    spec_value_le dimC2W.step_config dimC2W.current_value dimC2W.ceiling_value = true ∧
    spec_value_le dimC2W'.step_config dimC2W'.current_value dimC2W'.ceiling_value = true := by
  have hnv : dimC2W.next_value = some "35" := by
    rw [ProgressionDimension.next_value, if_neg (by decide)]
    show (StepConfig.increment 5 "min").next_value "30" = some "35"
    rw [StepConfig.next_value]
    rw [show parse_i32 "30" = some 30 from by decide]
    simp only [Option.map_some']
    rw [show (30 : Int) + 5 = 35 from by norm_num, i32_to_string_thirty_five]
  have hstep : ProgressionStep dimC2W dimC2W' := by
    refine Or.inl ⟨0, [], none,
      ⟨dimC2W',
        [{ dimension_name := "long_run", previous_value := "30", new_value := "35"
           change_type := "progress", trigger_workout_id := none, context_json := none }]⟩,
      "35", ?_, rfl⟩
    rw [apply_progression]
    dsimp only
    rw [hnv]
    dsimp only
    rw [if_neg (by decide)]
    rfl
  have hwf : ConfigWF dimC2W := by
    show 0 < 5 ∧ ∃ c k, parse_i32 "30" = some c ∧ parse_i32 "90" = some k ∧ 5 ∣ (k - c)
    exact ⟨by norm_num, 30, 90, by decide, by decide, by norm_num⟩
  have hle : spec_value_le dimC2W.step_config dimC2W.current_value dimC2W.ceiling_value
      = true := by decide
  exact ⟨hwf, hle, ceiling_bound_invariant hwf hle (Relation.ReflTransGen.single hstep)⟩

/-! ### C1: progressive decision precedence -/

/-- C1: for every progressive dimension the engine decision equals the first matching
rule of the spec's precedence order (1)-(9), and in particular ProgressAllowed is only
reported when none of rules (1)-(8) applies. -/
theorem progressive_decision_first_match
    (now : Int) (dim : ProgressionDimension) (context : TrainingContext)
    (flags : TrainingFlags) (adherence : AdherenceSummary)
    (last_prog_dim : Option String) (days_since_any : Int)
    (hp : dim.dimension_type = DimensionType.progressive) :
    (ProgressionSummary.build_dimension_status now dim context flags adherence
      last_prog_dim days_since_any).engine_decision =
      spec_decision now dim context flags adherence last_prog_dim days_since_any ∧
    ((ProgressionSummary.build_dimension_status now dim context flags adherence
      last_prog_dim days_since_any).engine_decision = EngineDecision.progressAllowed →
      dim.should_regress now = false ∧
      (adherence.should_consider_regression && dim.prev_value.isSome) = false ∧
      dim.is_at_ceiling = false ∧
      adherence.is_unstable = false ∧
      (!adherence.key_adherence_good && is_key_session_dimension dim.name) = false ∧
      (last_prog_dim.any fun last => last != dim.name && decide (days_since_any < 7)) = false ∧
      (ProgressionSummary.check_criteria dim.name dim context flags now).1 = true ∧
      adherence.week_stable = true) := by
  have hreg : ¬ dim.dimension_type = DimensionType.regulated := by
    rw [hp]
    intro hc
    cases hc
  rw [ProgressionSummary.build_dimension_status, spec_decision, if_neg hreg]
  dsimp only
  split_ifs <;> simp_all

/-- Witness for C1: the precedence characterization at a concrete progressive
dimension. -/
theorem progressive_decision_first_match_witness :
    dimC3.dimension_type = DimensionType.progressive ∧
    (ProgressionSummary.build_dimension_status 0 dimC3 ctx0 flags0 adherence_default
      none 30).engine_decision =
      spec_decision 0 dimC3 ctx0 flags0 adherence_default none 30 :=
  ⟨rfl,
    (progressive_decision_first_match 0 dimC3 ctx0 flags0 adherence_default none 30 rfl).1⟩

/-! ### C4: regulated dimensions bypass gating; TSB-selected duration -/

theorem getLast?_mem_int {l : List Int} {g : Int} (hg : l.getLast? = some g) : g ∈ l := by
  obtain ⟨hne, heq⟩ := List.mem_getLast?_eq_getLast (Option.mem_def.mpr hg)
  rw [heq]
  exact List.getLast_mem hne

theorem head?_mem_int {l : List Int} {h : Int} (hh : l.head? = some h) : h ∈ l := by
  cases l with
  | nil => exact absurd hh (by simp)
  | cons a t =>
    simp only [List.head?_cons, Option.some.injEq] at hh
    subst hh
    exact List.mem_cons_self a t

/-- C4 counterexample: a regulated dimension with the single configured option 60 and
TSB −15 is given duration 60, not the claimed min(shortest, 40) = 40. -/
theorem regulated_single_option_cex :
    ((-15 : ℚ) < -10) ∧
    (ProgressionSummary.build_dimension_status 0 dimC4 { ctx0 with tsb := some (-15) }
      flags0 adherence_default none 30).regulated_duration = some 60 ∧
    (60 : Int) ≠ min 60 40 := by
  refine ⟨by norm_num, by decide, by norm_num⟩

/-- C4 (amended): every regulated dimension bypasses gating — reported status is
AtCeiling, decision is Regulated, next value is absent, and the duration comes from
`get_regulated_duration`; when at least two options are configured in ascending
order, TSB ≥ 0 selects the longest option, −10 ≤ TSB < 0 the shortest, and
TSB < −10 the minimum of the shortest option and 40; with fewer than two options the
sole option (if any) is returned regardless of TSB. -/
theorem regulated_bypass_and_duration (now : Int) (dim : ProgressionDimension)
    (context : TrainingContext) (flags : TrainingFlags) (adherence : AdherenceSummary)
    (last_prog : Option String) (days_any : Int) (options : List Int) (u : String)
    (hcfg : dim.step_config = StepConfig.regulated options u) :
    ((ProgressionSummary.build_dimension_status now dim context flags adherence last_prog
      days_any).status = LifecycleStatus.atCeiling) ∧
    ((ProgressionSummary.build_dimension_status now dim context flags adherence last_prog
      days_any).engine_decision = EngineDecision.regulated) ∧
    ((ProgressionSummary.build_dimension_status now dim context flags adherence last_prog
      days_any).next_value = none) ∧
    ((ProgressionSummary.build_dimension_status now dim context flags adherence last_prog
      days_any).regulated_duration = dim.get_regulated_duration context.tsb) ∧
    (options.length < 2 → dim.get_regulated_duration context.tsb = options.head?) ∧
    (options.Sorted (· ≤ ·) → 2 ≤ options.length →
      ∀ t : ℚ, context.tsb = some t →
        (0 ≤ t → ∀ g, options.getLast? = some g →
          dim.get_regulated_duration context.tsb = some g ∧ g ∈ options ∧
            ∀ x ∈ options, x ≤ g) ∧
        (t < 0 → -10 ≤ t → ∀ h0, options.head? = some h0 →
          dim.get_regulated_duration context.tsb = some h0 ∧ h0 ∈ options ∧
            ∀ x ∈ options, h0 ≤ x) ∧
        (t < -10 → ∀ h0, options.head? = some h0 →
          dim.get_regulated_duration context.tsb = some (min h0 40) ∧ h0 ∈ options ∧
            ∀ x ∈ options, h0 ≤ x)) := by
  have hreg : dim.dimension_type = DimensionType.regulated := by
    rw [ProgressionDimension.dimension_type, hcfg]
  have hdur : dim.get_regulated_duration context.tsb =
      (StepConfig.regulated options u).get_regulated_duration context.tsb := by
    rw [ProgressionDimension.get_regulated_duration, hcfg]
  refine ⟨?_, ?_, ?_, ?_, ?_, ?_⟩
  · rw [ProgressionSummary.build_dimension_status, if_pos hreg]
  · rw [ProgressionSummary.build_dimension_status, if_pos hreg]
  · rw [ProgressionSummary.build_dimension_status, if_pos hreg]
  · rw [ProgressionSummary.build_dimension_status, if_pos hreg]
  · intro hlen
    rw [hdur, StepConfig.get_regulated_duration]
    rw [if_neg (by omega)]
  · intro hsort hlen t htsb
    rw [hdur, StepConfig.get_regulated_duration]
    rw [htsb]
    refine ⟨?_, ?_, ?_⟩
    · intro ht g hg
      rw [if_pos hlen]
      simp only [Option.getD_some]
      rw [if_pos (by exact ht)]
      exact ⟨hg, getLast?_mem_int hg,
        fun x hx => sorted_le_getLast? hsort hg hx⟩
    · intro ht0 ht10 h0 hh0
      rw [if_pos hlen]
      simp only [Option.getD_some]
      rw [if_neg (by exact not_le.mpr ht0), if_pos (by exact ht10)]
      exact ⟨hh0, head?_mem_int hh0,
        fun x hx => sorted_head?_le hsort hh0 hx⟩
    · intro ht h0 hh0
      rw [if_pos hlen]
      simp only [Option.getD_some]
      rw [if_neg (by exact not_le.mpr (by linarith)), if_neg (by exact not_le.mpr ht)]
      rw [hh0]
      exact ⟨rfl, head?_mem_int hh0,
        fun x hx => sorted_head?_le hsort hh0 hx⟩

/-- Witness for C4 (amended): the seeded regulated dimension with options 45/60 and a
fresh TSB of 5 reports decision Regulated with the longest duration 60. -/
theorem regulated_bypass_and_duration_witness :
    dimC4W.step_config = StepConfig.regulated [45, 60] "min" ∧
    (ProgressionSummary.build_dimension_status 0 dimC4W ctxC4W flags0 adherence_default
      none 30).engine_decision = EngineDecision.regulated ∧
    dimC4W.get_regulated_duration ctxC4W.tsb = some 60 := by
  have h := regulated_bypass_and_duration 0 dimC4W ctxC4W flags0 adherence_default
    none 30 [45, 60] "min" rfl
  refine ⟨rfl, h.2.1, ?_⟩
  have h5 := h.2.2.2.2.2 (by decide) (by norm_num) 5 rfl
  exact (h5.1 (by norm_num) 60 rfl).1

/-! ### C5: ATL / CTL / TSB from the rolling windows -/

/-- C5: for workouts whose stress scores are nonnegative (as the metric calculator
produces), ATL is the sum of scores of workouts under 7 days old, absent exactly when
that sum is 0; CTL is the under-42-day sum divided by 42 with the same absence rule;
TSB is CTL − ATL/7 exactly when both are present. -/
theorem training_load_windows (now : Int) (workouts : List WorkoutSummary)
    (settings : UserSettings)
    (hnn : ∀ w ∈ workouts, ∀ r : ℚ, w.rtss = some r → 0 ≤ r) :
    ((TrainingContext.compute now workouts settings).atl =
      if ((workouts.filter fun w => now - w.started_at < 7).filterMap (·.rtss)).sum = 0
      then none
      else some ((workouts.filter fun w => now - w.started_at < 7).filterMap (·.rtss)).sum) ∧
    ((TrainingContext.compute now workouts settings).ctl =
      if ((workouts.filter fun w => now - w.started_at < 42).filterMap (·.rtss)).sum = 0
      then none
      else some
        (((workouts.filter fun w => now - w.started_at < 42).filterMap (·.rtss)).sum / 42)) ∧
    ((TrainingContext.compute now workouts settings).tsb =
      match (TrainingContext.compute now workouts settings).ctl,
          (TrainingContext.compute now workouts settings).atl with
      | some c, some a => some (c - a / 7)
      | _, _ => none) := by
  have hsum : ∀ d : Int,
      0 ≤ ((workouts.filter fun w => now - w.started_at < d).filterMap (·.rtss)).sum := by
    intro d
    apply List.sum_nonneg
    intro x hx
    obtain ⟨w, hw, hr⟩ := List.mem_filterMap.mp hx
    exact hnn w (List.mem_of_mem_filter hw) x hr
  refine ⟨?_, ?_, ?_⟩
  · rw [TrainingContext.compute]
    dsimp only
    rw [TrainingContext.compute_rtss_sum]
    by_cases h0 :
        ((workouts.filter fun w => now - w.started_at < 7).filterMap (·.rtss)).sum = 0
    · rw [h0]
      norm_num
    · have hpos := lt_of_le_of_ne (hsum 7) (Ne.symm h0)
      rw [if_pos hpos, if_neg h0]
  · rw [TrainingContext.compute]
    dsimp only
    rw [TrainingContext.compute_rtss_avg]
    by_cases h0 :
        ((workouts.filter fun w => now - w.started_at < 42).filterMap (·.rtss)).sum = 0
    · rw [h0]
      norm_num
    · have hpos := lt_of_le_of_ne (hsum 42) (Ne.symm h0)
      rw [if_pos hpos, if_neg h0]
      norm_num
  · rfl

/-- Witness for C5: a single scored run two days old gives ATL 50, CTL 50/42 and
TSB 50/42 − 50/7. -/
theorem training_load_windows_witness :
    (TrainingContext.compute 30 workoutsC5 settings0).atl = some 50 ∧
    (TrainingContext.compute 30 workoutsC5 settings0).ctl = some (50 / 42) ∧
    (TrainingContext.compute 30 workoutsC5 settings0).tsb = some (50 / 42 - 50 / 7) := by
  have h := training_load_windows 30 workoutsC5 settings0 (by
    intro w hw r hr
    simp only [workoutsC5, List.mem_singleton] at hw
    subst hw
    simp only [Option.some.injEq] at hr
    subst hr
    norm_num)
  obtain ⟨ha, hc, ht⟩ := h
  have e7 : ((workoutsC5.filter fun w => (30 : Int) - w.started_at < 7).filterMap
      (·.rtss)).sum = 50 := by
    norm_num [workoutsC5, List.filterMap_cons, List.sum_cons, List.sum_nil]
  have e42 : ((workoutsC5.filter fun w => (30 : Int) - w.started_at < 42).filterMap
      (·.rtss)).sum = 50 := by
    norm_num [workoutsC5, List.filterMap_cons, List.sum_cons, List.sum_nil]
  rw [e7] at ha
  rw [e42] at hc
  rw [if_neg (by norm_num)] at ha
  rw [if_neg (by norm_num)] at hc
  rw [ha, hc] at ht
  exact ⟨ha, hc, ht⟩

/-! ### C6: stress score example -/

theorem stress_score_eval :
    (WorkoutMetrics.compute "run" (some 2640) none (some 139) none settingsC6).rtss =
      some (212531 / 4335 : ℚ) := by
  simp only [WorkoutMetrics.compute, Option.map_some',
    show settingsC6.effective_lthr = some 170 from rfl]
  norm_num

/-- C6 counterexample: on duration 2640 s, average HR 139, threshold HR 170 the code
computes 212531/4335 ≈ 49.03, which is not within 0.5 of the claimed 39.7. -/
theorem stress_score_spec_example_cex :
    (WorkoutMetrics.compute "run" (some 2640) none (some 139) none settingsC6).rtss =
      some (212531 / 4335 : ℚ) ∧
    ¬ |(212531 / 4335 : ℚ) - 397 / 10| ≤ 1 / 2 := by
  refine ⟨stress_score_eval, ?_⟩
  rw [abs_le]
  push_neg
  intro h
  norm_num

/-- C6 (amended): the stress score computed for duration 2640 s, average HR 139 and
threshold HR 170 is 212531/4335, approximately 49.0 within a tolerance of 0.5, per
score = duration_min·(HR/threshold)²/60·100. -/
theorem stress_score_value :
    (WorkoutMetrics.compute "run" (some 2640) none (some 139) none settingsC6).rtss =
      some (212531 / 4335 : ℚ) ∧
    |(212531 / 4335 : ℚ) - 49| ≤ 1 / 2 := by
  refine ⟨stress_score_eval, ?_⟩
  rw [abs_le]
  constructor <;> norm_num

/-! ### C8: HR zone boundaries -/

/-- C8: HR-zone classification is exact on the HR/max-HR percentage — strictly below
60% is Z1, below 70% Z2, below 80% Z3, below 90% Z4, else Z5; in particular HR 114
with max HR 190 (exactly 60.0%) is Z2, not Z1. -/
theorem hr_zone_boundaries :
    (∀ hr max_hr : Int, 0 < max_hr →
      (HrZone.from_hr hr max_hr = HrZone.z1 ↔ (hr : ℚ) / (max_hr : ℚ) * 100 < 60) ∧
      (HrZone.from_hr hr max_hr = HrZone.z2 ↔
        60 ≤ (hr : ℚ) / (max_hr : ℚ) * 100 ∧ (hr : ℚ) / (max_hr : ℚ) * 100 < 70) ∧
      (HrZone.from_hr hr max_hr = HrZone.z3 ↔
        70 ≤ (hr : ℚ) / (max_hr : ℚ) * 100 ∧ (hr : ℚ) / (max_hr : ℚ) * 100 < 80) ∧
      (HrZone.from_hr hr max_hr = HrZone.z4 ↔
        80 ≤ (hr : ℚ) / (max_hr : ℚ) * 100 ∧ (hr : ℚ) / (max_hr : ℚ) * 100 < 90) ∧
      (HrZone.from_hr hr max_hr = HrZone.z5 ↔ 90 ≤ (hr : ℚ) / (max_hr : ℚ) * 100)) ∧
    (HrZone.from_hr 114 190 = HrZone.z2 ∧ HrZone.from_hr 114 190 ≠ HrZone.z1) := by
  constructor
  · intro hr max_hr _
    rw [HrZone.from_hr]
    split_ifs with h1 h2 h3 h4 <;>
      refine ⟨?_, ?_, ?_, ?_, ?_⟩ <;>
      constructor <;>
      intro hx <;>
      first
        | rfl
        | exact absurd hx (by decide)
        | linarith
        | (constructor <;> linarith)
  · constructor
    · rw [HrZone.from_hr]
      norm_num
    · rw [HrZone.from_hr]
      norm_num
      decide

/-- Witness for C8: the boundary characterization applied at HR 114, max HR 190. -/
theorem hr_zone_boundaries_witness :
    (0 : Int) < 190 ∧
    (HrZone.from_hr 114 190 = HrZone.z2 ↔
      60 ≤ (114 : ℚ) / (190 : ℚ) * 100 ∧ (114 : ℚ) / (190 : ℚ) * 100 < 70) :=
  ⟨by norm_num, (hr_zone_boundaries.1 114 190 (by norm_num)).2.1⟩

/-! ### C7: ceiling-touch regression and maintenance gates -/

/-- C7 counterexample: an AtCeiling dimension whose ceiling touch was only 5 days ago
is still told to Regress when the engine sees 2 consecutive low-adherence weeks and a
prior value exists — contradicting "never Regress" for touches under 21 days. -/
theorem at_ceiling_low_adherence_regress_cex :
    dimC7.status = LifecycleStatus.atCeiling ∧
    dimC7.last_ceiling_touch_at = some 25 ∧
    ((30 : Int) - 25 < 21) ∧
    (ProgressionSummary.build_dimension_status 30 dimC7 ctx0 flags0 adhC7 none
      30).engine_decision = EngineDecision.regress := by
  refine ⟨rfl, rfl, by norm_num, by decide⟩

/-- C7 (amended): for a progressive dimension with status AtCeiling (and, per the
documented meaning of AtCeiling, a value at its ceiling), provided the
2-consecutive-low-adherence-week regression trigger does not apply: a ceiling touch
21 or more days old yields Regress; a touch fewer than 21 days ago yields
MaintenanceDue or AtCeiling and never Regress; maintenance is due exactly when the
ceiling was never touched or the touch is at least the maintenance cadence old; a
never-touched ceiling does not trigger regression. -/
theorem ceiling_regression_gate (now : Int) (dim : ProgressionDimension)
    (context : TrainingContext) (flags : TrainingFlags) (adherence : AdherenceSummary)
    (last_prog : Option String) (days_any : Int)
    (hprog : dim.dimension_type = DimensionType.progressive)
    (hstat : dim.status = LifecycleStatus.atCeiling)
    (hceil : dim.is_at_ceiling = true)
    (hnoR2 : (adherence.should_consider_regression && dim.prev_value.isSome) = false) :
    (∀ t : Int, dim.last_ceiling_touch_at = some t → 21 ≤ now - t →
      (ProgressionSummary.build_dimension_status now dim context flags adherence
        last_prog days_any).engine_decision = EngineDecision.regress) ∧
    (∀ t : Int, dim.last_ceiling_touch_at = some t → now - t < 21 →
      ((ProgressionSummary.build_dimension_status now dim context flags adherence
        last_prog days_any).engine_decision = EngineDecision.maintenanceDue ∨
       (ProgressionSummary.build_dimension_status now dim context flags adherence
        last_prog days_any).engine_decision = EngineDecision.atCeiling) ∧
      (ProgressionSummary.build_dimension_status now dim context flags adherence
        last_prog days_any).engine_decision ≠ EngineDecision.regress) ∧
    (dim.last_ceiling_touch_at = none →
      ((ProgressionSummary.build_dimension_status now dim context flags adherence
        last_prog days_any).engine_decision = EngineDecision.maintenanceDue ∨
       (ProgressionSummary.build_dimension_status now dim context flags adherence
        last_prog days_any).engine_decision = EngineDecision.atCeiling) ∧
      (ProgressionSummary.build_dimension_status now dim context flags adherence
        last_prog days_any).engine_decision ≠ EngineDecision.regress) ∧
    ((ProgressionSummary.build_dimension_status now dim context flags adherence
        last_prog days_any).maintenance_due = true ↔
      dim.last_ceiling_touch_at = none ∨
      ∃ t : Int, dim.last_ceiling_touch_at = some t ∧
        dim.maintenance_cadence_days ≤ now - t) := by
  have hreg : ¬ dim.dimension_type = DimensionType.regulated := by
    rw [hprog]
    intro hc
    cases hc
  have hstat' : ¬ dim.status ≠ LifecycleStatus.atCeiling := by simp [hstat]
  have hnot_at : ∀ t : Int, dim.last_ceiling_touch_at = some t → now - t < 21 →
      dim.should_regress now = false := by
    intro t ht hlt
    rw [ProgressionDimension.should_regress, if_neg hstat', ht]
    simp only [decide_eq_false_iff_not]
    omega
  refine ⟨?_, ?_, ?_, ?_⟩
  · intro t ht hge
    have hsr : dim.should_regress now = true := by
      rw [ProgressionDimension.should_regress, if_neg hstat', ht]
      simp only [decide_eq_true_eq]
      omega
    rw [ProgressionSummary.build_dimension_status, if_neg hreg]
    dsimp only
    rw [if_pos hsr]
  · intro t ht hlt
    have hsr := hnot_at t ht hlt
    rw [ProgressionSummary.build_dimension_status, if_neg hreg]
    dsimp only
    rw [if_neg (by simp [hsr]), if_neg (by simp [hnoR2]), if_pos hceil]
    constructor
    · by_cases hmd : dim.maintenance_due now = true
      · left
        rw [if_pos hmd]
      · right
        rw [if_neg hmd]
    · by_cases hmd : dim.maintenance_due now = true
      · rw [if_pos hmd]
        intro hc
        cases hc
      · rw [if_neg hmd]
        intro hc
        cases hc
  · intro ht
    have hsr : dim.should_regress now = false := by
      rw [ProgressionDimension.should_regress, if_neg hstat', ht]
    rw [ProgressionSummary.build_dimension_status, if_neg hreg]
    dsimp only
    rw [if_neg (by simp [hsr]), if_neg (by simp [hnoR2]), if_pos hceil]
    constructor
    · by_cases hmd : dim.maintenance_due now = true
      · left
        rw [if_pos hmd]
      · right
        rw [if_neg hmd]
    · by_cases hmd : dim.maintenance_due now = true
      · rw [if_pos hmd]
        intro hc
        cases hc
      · rw [if_neg hmd]
        intro hc
        cases hc
  · rw [ProgressionSummary.build_dimension_status, if_neg hreg]
    dsimp only
    rw [ProgressionDimension.maintenance_due, if_neg hstat']
    rcases ht : dim.last_ceiling_touch_at with _ | t
    · simp
    · simp only [decide_eq_true_eq]
      constructor
      · intro hge
        exact Or.inr ⟨t, rfl, by omega⟩
      · intro hor
        rcases hor with hnone | ⟨t', ht', hge⟩
        · exact absurd hnone (by simp)
        · obtain rfl : t = t' := by injection ht'
          omega

/-- Witness for C7 (amended): the same at-ceiling dimension with a 5-day-old touch
and a fully adherent week is AtCeiling or MaintenanceDue, never Regress. -/
theorem ceiling_regression_gate_witness :
    dimC7.dimension_type = DimensionType.progressive ∧
    dimC7.is_at_ceiling = true ∧
    ((ProgressionSummary.build_dimension_status 30 dimC7 ctx0 flags0 adherence_default
      none 30).engine_decision = EngineDecision.maintenanceDue ∨
     (ProgressionSummary.build_dimension_status 30 dimC7 ctx0 flags0 adherence_default
      none 30).engine_decision = EngineDecision.atCeiling) ∧
    (ProgressionSummary.build_dimension_status 30 dimC7 ctx0 flags0 adherence_default
      none 30).engine_decision ≠ EngineDecision.regress := by
  have h := ceiling_regression_gate 30 dimC7 ctx0 flags0 adherence_default none 30
    rfl rfl (by decide) (by decide)
  have h5 := h.2.1 25 rfl (by norm_num)
  exact ⟨rfl, by decide, h5.1, h5.2⟩

/-! ### C9: batch totality and malformed numeric state -/

theorem malformed_decision_eval :
    (ProgressionSummary.build_dimension_status 30 dimC9 ctxC9 flags0 adherence_default
      (some "mobility") 10).engine_decision = EngineDecision.progressAllowed := by
  have hunstable : ¬ adherence_default.is_unstable = true := by
    rw [AdherenceSummary.is_unstable]
    simp only [adherence_default, decide_eq_true_eq, not_lt]
    norm_num
  rw [ProgressionSummary.build_dimension_status, if_neg (by decide)]
  dsimp only
  rw [if_neg (by decide), if_neg (by decide), if_neg (by decide), if_neg hunstable,
    if_neg (by decide), if_neg (by decide), if_neg (by decide), if_neg (by decide)]

/-- C9 counterexample: a malformed Increment dimension (current value "abc") with
favourable conditions receives ProgressAllowed — with an absent next value — rather
than the claimed conservative Hold, although the batch computation itself is total. -/
theorem malformed_increment_progress_allowed_cex :
    parse_i32 dimC9.current_value = none ∧
    (ProgressionSummary.compute 30 [dimC9] ctxC9 flags0
      adherence_default).dimensions.head?.map DimensionStatus.engine_decision =
      some EngineDecision.progressAllowed ∧
    (ProgressionSummary.compute 30 [dimC9] ctxC9 flags0
      adherence_default).dimensions.head?.map DimensionStatus.next_value = some none ∧
    EngineDecision.progressAllowed ≠ EngineDecision.hold := by
  have hdims : (ProgressionSummary.compute 30 [dimC9] ctxC9 flags0
      adherence_default).dimensions =
      [ProgressionSummary.build_dimension_status 30 dimC9 ctxC9 flags0 adherence_default
        (some "mobility") 10] := by
    rw [ProgressionSummary.compute]
    dsimp only
    norm_num [dimC9, List.filterMap_cons]
  have hnext : (ProgressionSummary.build_dimension_status 30 dimC9 ctxC9 flags0
      adherence_default (some "mobility") 10).next_value = none := by
    rw [ProgressionSummary.build_dimension_status, if_neg (by decide)]
    dsimp only
    rw [show dimC9.next_value = none from by decide]
  refine ⟨by decide, ?_, ?_, by decide⟩
  · rw [hdims]
    simp only [List.head?_cons, Option.map_some']
    rw [malformed_decision_eval]
  · rw [hdims]
    simp only [List.head?_cons, Option.map_some']
    rw [hnext]

/-- C9 (amended): the batch summary computation is total — it yields exactly one
status per dimension, in order, never failing — and a dimension with malformed
numeric state (an Increment current value that fails to parse) is evaluated like any
other with no next value offered; its decision is an ordinary gate decision, which
can be ProgressAllowed rather than a guaranteed Hold. -/
theorem summary_total_malformed_graceful (now : Int) (dims : List ProgressionDimension)
    (context : TrainingContext) (flags : TrainingFlags) (adherence : AdherenceSummary) :
    (ProgressionSummary.compute now dims context flags adherence).dimensions.length =
      dims.length ∧
    (∀ (i : Nat) (dim : ProgressionDimension), dims.get? i = some dim →
      ∃ st, (ProgressionSummary.compute now dims context flags adherence).dimensions.get? i
          = some st ∧
        st.name = dim.name ∧
        (∀ (inc : Int) (u : String), dim.step_config = StepConfig.increment inc u →
          parse_i32 dim.current_value = none → st.next_value = none)) := by
  constructor
  · rw [ProgressionSummary.compute]
    dsimp only
    rw [List.length_map]
  · intro i dim hget
    rw [ProgressionSummary.compute]
    dsimp only
    rw [List.get?_map, hget]
    simp only [Option.map_some']
    refine ⟨_, rfl, ?_, ?_⟩
    · rw [ProgressionSummary.build_dimension_status]
      split <;> rfl
    · intro inc u hcfg hparse
      have hreg : ¬ dim.dimension_type = DimensionType.regulated := by
        rw [ProgressionDimension.dimension_type, hcfg]
        intro hc
        cases hc
      rw [ProgressionSummary.build_dimension_status, if_neg hreg]
      dsimp only
      rw [ProgressionDimension.next_value]
      split
      · rfl
      · rw [hcfg, StepConfig.next_value, hparse]
        rfl

/-- Witness for C9 (amended): the singleton batch over the malformed dimension. -/
theorem summary_total_malformed_graceful_witness :
    (ProgressionSummary.compute 30 [dimC9] ctxC9 flags0
      adherence_default).dimensions.length = 1 ∧
    (∃ st, (ProgressionSummary.compute 30 [dimC9] ctxC9 flags0
        adherence_default).dimensions.get? 0 = some st ∧
      st.name = dimC9.name ∧ st.next_value = none) := by
  have h := summary_total_malformed_graceful 30 [dimC9] ctxC9 flags0 adherence_default
  refine ⟨h.1, ?_⟩
  obtain ⟨st, hst, hname, hmal⟩ := h.2 0 dimC9 rfl
  exact ⟨st, hst, hname, hmal 5 "min" rfl (by decide)⟩

/-! ### C10: the consecutive-low-adherence stub disables the rule-2 trigger -/

/-- C10: the shipped adherence pipeline always reports 0 consecutive low-adherence
weeks, so `should_consider_regression` is false and a Regress decision can only come
from the ceiling-touch trigger (`should_regress`), never from the low-adherence rule. -/
theorem low_adherence_stub_never_regress (rows : List (String × Option Int))
    (settings : UserSettings) :
    (compute_adherence rows settings).consecutive_low_adherence_weeks = 0 ∧
    (compute_adherence rows settings).should_consider_regression = false ∧
    (∀ (now : Int) (dim : ProgressionDimension) (context : TrainingContext)
        (flags : TrainingFlags) (last_prog : Option String) (days_any : Int),
      (ProgressionSummary.build_dimension_status now dim context flags
        (compute_adherence rows settings) last_prog days_any).engine_decision =
        EngineDecision.regress →
      dim.should_regress now = true) := by
  have hc : (compute_adherence rows settings).consecutive_low_adherence_weeks = 0 := by
    rw [compute_adherence, AdherenceSummary.compute]
  have hs : (compute_adherence rows settings).should_consider_regression = false := by
    rw [AdherenceSummary.should_consider_regression, hc]
    rfl
  refine ⟨hc, hs, ?_⟩
  intro now dim context flags last_prog days_any hdec
  by_cases hreg : dim.dimension_type = DimensionType.regulated
  · rw [ProgressionSummary.build_dimension_status, if_pos hreg] at hdec
    dsimp only at hdec
    cases hdec
  · rw [ProgressionSummary.build_dimension_status, if_neg hreg] at hdec
    dsimp only at hdec
    by_cases hsr : dim.should_regress now = true
    · exact hsr
    · exfalso
      rw [if_neg hsr, if_neg (by simp [hs])] at hdec
      split_ifs at hdec

/-- Witness for C10: with the shipped adherence over an empty week, the only Regress
comes from a 25-day-old ceiling touch. -/
theorem low_adherence_stub_never_regress_witness :
    (compute_adherence [] settings0).should_consider_regression = false ∧
    dimC10.should_regress 30 = true := by
  have h := low_adherence_stub_never_regress [] settings0
  refine ⟨h.2.1, ?_⟩
  apply h.2.2 30 dimC10 ctx0 flags0 none 30
  rw [ProgressionSummary.build_dimension_status, if_neg (by decide)]
  dsimp only
  rw [if_pos (by decide)]

end Tempo
